import Mathlib

/-!
Verification development for the AI Video Composer frontend core:
a shallow embedding of the asset/artifact lifecycle and request
orchestration implemented in `frontend/src/components/EditorSidebar.tsx`,
`frontend/src/components/PreviewCanvas.tsx`, the application root
(the `App` variant wiring `EditorSidebar`/`PreviewCanvas`/`ProcessViewer`),
and the `MediaGallery` component of the earlier application root.

Conventions of the embedding:
- JavaScript strings stay `String`; `null`-able strings become `Option String`.
- `String.prototype.startsWith` and the blank test `!s.trim()` are modelled
  over the character list of the string (`jsStartsWith`, `isBlank`), which is
  exactly their JavaScript semantics.
- Asset ids (random base36 tokens in the source) become `Nat` tokens supplied
  by the caller (the source generates a fresh one per construction).
- `File` payloads and object URLs are represented by their URL strings.
- Durations (floating point seconds in the source) become `ℚ`; the constants
  involved (1, 1/2, 1/10) and the inputs used in concrete statements are
  exactly representable, so no float/rational divergence affects a statement.
- Asynchronous failure points (fetch/blob, thumbnail generation) become
  explicit parameters: `fetchOk : Bool` for binary retrieval,
  `Option String` for a thumbnail attempt (`none` = the promise rejected).
- `URL.createObjectURL` / `URL.revokeObjectURL` are instrumented by an
  `allocated` list of live object URLs carried in the state records.
-/

/-- JavaScript `s.startsWith(p)`: `p`'s characters are a prefix of `s`'s. -/
def jsStartsWith (s p : String) : Bool :=
  p.data.isPrefixOf s.data

/-- JavaScript `!s.trim()` (the falsiness test used on prompt text):
true exactly when every character of `s` is whitespace. -/
def isBlank (s : String) : Bool :=
  s.data.all Char.isWhitespace

/-- `'image' | 'video' | 'audio'` — the media kind tag of the source. -/
inductive FileKind where
  | image
  | video
  | audio
deriving DecidableEq, Repr

/-- `MediaAsset` of `EditorSidebar.tsx` / `PreviewCanvas.tsx` / `App.tsx`:
`{ id, name, type, thumbnail, file }`. `file` holds the payload reference. -/
structure MediaAsset where
  id : Nat
  name : String
  type : FileKind
  thumbnail : String
  file : String
deriving DecidableEq, Repr

/-- `getFileType` of `EditorSidebar.tsx` (lines 26-31) and
`PreviewCanvas.tsx` (lines 175-180): classify by declared MIME type,
defaulting to `image`. -/
def getFileType (mime : String) : FileKind :=
  if jsStartsWith mime "image/" then .image
  else if jsStartsWith mime "video/" then .video
  else if jsStartsWith mime "audio/" then .audio
  else .image

/-- One dropped `File` as seen by `EditorSidebar.onDrop`: its name, declared
MIME type, the object URL `URL.createObjectURL(file)` would yield, and the
outcome of `generateVideoThumbnail` on it (`none` = the promise rejected,
e.g. because the binary fails to decode). -/
structure DropFile where
  name : String
  mime : String
  objectUrl : String
  thumbResult : Option String
deriving DecidableEq, Repr

/-- The per-file body of `EditorSidebar.onDrop` (lines 82-104): classify,
try the video thumbnail (the `catch` sets `thumbnail = ''` when it fails),
otherwise use the object URL, and build the `MediaAsset` with a fresh id. -/
def ingestFile (f : DropFile) (freshId : Nat) : MediaAsset :=
  let type := getFileType f.mime
  let thumbnail :=
    if type = .video then
      match f.thumbResult with
      | some t => t
      | none => ""
    else f.objectUrl
  { id := freshId, name := f.name, type := type, thumbnail := thumbnail,
    file := f.objectUrl }

/-- The `for (const file of acceptedFiles)` loop of `EditorSidebar.onDrop`:
each file is ingested independently, accumulating `newAssets`; fresh ids are
drawn consecutively from `startId`. -/
def ingestBatch : List DropFile → Nat → List MediaAsset
  | [], _ => []
  | f :: fs, i => ingestFile f i :: ingestBatch fs (i + 1)

/-- `EditorSidebar.onDrop` (lines 79-107): `onAssetsChange([...assets,
...newAssets])` — append the whole ingested batch to the Library. -/
def onDrop (assets : List MediaAsset) (files : List DropFile)
    (startId : Nat) : List MediaAsset :=
  assets ++ ingestBatch files startId

/-- Number of entries of `l` whose `id` equals `i`. -/
def countId (l : List MediaAsset) (i : Nat) : Nat :=
  (l.filter (fun a => a.id == i)).length

/-- `App.handleAddAssetToCreate` (the root wiring `EditorSidebar` /
`PreviewCanvas` / `ProcessViewer`, lines 24-30): insertion into the
Composition (`selectedAssets`) deduplicated by `id` via
`selectedAssets.some(a => a.id === asset.id)`. -/
def handleAddAssetToCreate (selectedAssets : List MediaAsset)
    (asset : MediaAsset) : List MediaAsset :=
  if selectedAssets.any (fun a => a.id == asset.id) then selectedAssets
  else selectedAssets ++ [asset]

/-- `n` successive `handleAddAssetToCreate` calls with the same asset. -/
def iterateAdd : Nat → List MediaAsset → MediaAsset → List MediaAsset
  | 0, l, _ => l
  | n + 1, l, a => iterateAdd n (handleAddAssetToCreate l a) a

/-- Outcome of one `apiService.processVideo` round trip: a command string and
a video payload on success, an extracted error message on failure. -/
inductive ServiceResult where
  | ok (command : String) (video : String)
  | err (msg : String)
deriving DecidableEq, Repr

/-- The state held by the `App` root (lines 16-21): Library (`assets`),
Composition (`selectedAssets`), the `busy` flag (`isProcessing`), the
Process Log (`output`), the generated command, and the held artifact URL. -/
structure AppState where
  assets : List MediaAsset
  selectedAssets : List MediaAsset
  isProcessing : Bool
  output : String
  command : Option String
  videoUrl : Option String
deriving DecidableEq, Repr

/-- `setOutput('⚠️ Please add files to the Create grid first')`. -/
def warnFilesLine : String := "⚠️ Please add files to the Create grid first"

/-- `setOutput('⚠️ Please enter a prompt describing what you want to create')`. -/
def warnPromptLine : String :=
  "⚠️ Please enter a prompt describing what you want to create"

/-- `setOutput('🤖 Starting FFmpeg processing...\n')`. -/
def startLine : String := "🤖 Starting FFmpeg processing...\n"

/-- The three progress appends made synchronously before the service call. -/
def progressLines : String :=
  "✓ Uploading files...\n" ++ "✓ Analyzing media files...\n" ++
    "✓ Generating FFmpeg command with AI...\n"

/-- The three appends made on the success path after the service returns. -/
def successLines : String :=
  "✓ Generated command\n" ++ "✓ Processing video...\n" ++
    "✅ Video generated successfully!\n"

/-- The state mutations `handleProcess` performs at the start of dispatch
(lines 49-52): enter busy, reset the log to the single start line, clear the
command, clear the held artifact. -/
def dispatchReset (s : AppState) : AppState :=
  { s with isProcessing := true, output := startLine, command := none,
           videoUrl := none }

/-- The synchronous prefix of `App.handleProcess` (lines 38-60), up to the
`await apiService.processVideo`: the two precondition checks (each replacing
the log with a warning and returning), then the dispatch reset followed by
the three progress appends. -/
def handleProcessSync (s : AppState) (prompt : String) : AppState :=
  if s.selectedAssets.isEmpty then
    { s with output := warnFilesLine }
  else if isBlank prompt then
    { s with output := warnPromptLine }
  else
    let s1 := dispatchReset s
    { s1 with output := s1.output ++ progressLines }

/-- `App.handleProcess` (lines 38-87) run to completion with service outcome
`svc`: after the synchronous prefix, the success path stores the command,
appends the success lines and installs the new artifact URL; the failure path
appends the extracted error line; both clear `isProcessing` in `finally`. -/
def handleProcess (s : AppState) (prompt : String)
    (svc : ServiceResult) : AppState :=
  if s.selectedAssets.isEmpty then handleProcessSync s prompt
  else if isBlank prompt then handleProcessSync s prompt
  else
    let s2 := handleProcessSync s prompt
    match svc with
    | .ok cmd vid =>
        { s2 with command := some cmd,
                  output := s2.output ++ successLines,
                  videoUrl := some vid,
                  isProcessing := false }
    | .err msg =>
        { s2 with output := s2.output ++ "❌ Error: " ++ msg ++ "\n",
                  isProcessing := false }

/-- The `disabled` predicate of the Generate button in `PreviewCanvas.tsx`
(line 446): `!prompt.trim() || isProcessing`. -/
def generateButtonDisabled (prompt : String) (isProcessing : Bool) : Bool :=
  isBlank prompt || isProcessing

/-- The guard of `PreviewCanvas.handleSendPrompt` (lines 279-283), reached
from the Enter key via `handlePromptKeyDown`: `onProcess` is invoked iff
`prompt.trim()` is truthy — the busy flag is not consulted on this path. -/
def sendPromptInvokes (prompt : String) : Bool :=
  !(isBlank prompt)

/-- State of the Render Stage Controller (`PreviewCanvas.tsx`) together with
the two Asset Store collections its injected callbacks mutate: `onAddAsset`
of the import action appends to the Library, `onClearAssets`/`onAddAsset` of
the reload action target the Composition (§4.4 wiring of the callbacks).
`importedVideoUrl` / `reloadedVideoUrl` are the dedup markers. -/
structure CanvasState where
  videoUrl : Option String
  importedVideoUrl : Option String
  reloadedVideoUrl : Option String
  library : List MediaAsset
  composition : List MediaAsset
deriving DecidableEq, Repr

/-- The `MediaAsset` both terminal actions construct (lines 119-125 and
159-165): a fresh id, a timestamped `rendered-video-<now>.mp4` name, kind
video, the chosen thumbnail, and the fetched payload (identified here by the
artifact URL it was fetched from). -/
def renderedAsset (thumbnail url : String) (freshId now : Nat) : MediaAsset :=
  { id := freshId, name := "rendered-video-" ++ toString now ++ ".mp4",
    type := .video, thumbnail := thumbnail, file := url }

/-- `PreviewCanvas.handleImportToLibrary` (lines 98-133). `fetchOk` is the
outcome of `fetch`/`blob` (false = the outer `catch` runs, mutating
nothing); `thumbResult` is the `generateThumbnailFromVideo` outcome, whose
failure is caught locally and falls back to the artifact URL itself. On
success the asset is handed to `onAddAsset` and the marker is set. -/
def handleImportToLibrary (s : CanvasState) (fetchOk : Bool)
    (thumbResult : Option String) (freshId now : Nat) : CanvasState :=
  match s.videoUrl with
  | none => s
  | some url =>
      if s.importedVideoUrl = some url then s
      else if fetchOk then
        let thumbnail := thumbResult.getD url
        { s with library := s.library ++ [renderedAsset thumbnail url freshId now],
                 importedVideoUrl := some url }
      else s

/-- `PreviewCanvas.handleReloadToCompose` (lines 136-173). Note the source
calls `onClearAssets()` inside the `try` block *before* fetching the binary,
so a fetch failure still leaves the Composition cleared. Thumbnail failure
falls back to the artifact URL, exactly as in the import action. -/
def handleReloadToCompose (s : CanvasState) (fetchOk : Bool)
    (thumbResult : Option String) (freshId now : Nat) : CanvasState :=
  match s.videoUrl with
  | none => s
  | some url =>
      if s.reloadedVideoUrl = some url then s
      else
        let s1 := { s with composition := [] }
        if fetchOk then
          let thumbnail := thumbResult.getD url
          { s1 with composition :=
                      s1.composition ++ [renderedAsset thumbnail url freshId now],
                    reloadedVideoUrl := some url }
        else s1

/-- The `useEffect` of `PreviewCanvas.tsx` (lines 46-50): whenever the
controller receives a new artifact reference (`videoUrl` changes), both
dedup markers are reset to `null`. -/
def receiveArtifact (s : CanvasState) (newUrl : Option String) : CanvasState :=
  { s with videoUrl := newUrl, importedVideoUrl := none,
           reloadedVideoUrl := none }

/-- Metadata of a decodable video binary, as read off the media element. -/
structure VideoMeta where
  duration : ℚ
  videoWidth : Nat
  videoHeight : Nat
deriving DecidableEq, Repr

/-- A produced thumbnail: the seek position the frame was taken at and the
canvas dimensions it was rasterized into. -/
structure ThumbFrame where
  seekTime : ℚ
  width : Nat
  height : Nat
deriving DecidableEq, Repr

/-- `generateVideoThumbnail` of `EditorSidebar.tsx` (lines 33-77), the
variant used for Library ingestion: `video.currentTime = Math.min(1,
video.duration * 0.1)`, then rasterize at `videoWidth × videoHeight`. -/
def generateVideoThumbnailLibrary (v : VideoMeta) : ThumbFrame :=
  { seekTime := min 1 (v.duration * (1 / 10)),
    width := v.videoWidth, height := v.videoHeight }

/-- `generateVideoThumbnail` of `PreviewCanvas.tsx` (lines 182-217), the
variant used when dropping files onto the Compose grid: `video.currentTime =
Math.min(1, video.duration / 2)`, then rasterize at `videoWidth ×
videoHeight`. -/
def generateVideoThumbnailRender (v : VideoMeta) : ThumbFrame :=
  { seekTime := min 1 (v.duration / 2),
    width := v.videoWidth, height := v.videoHeight }

/-- `MediaFile` of `types/index.ts` as used by `MediaGallery`:
`{ id, file, preview, type }`. -/
structure MediaFile where
  id : Nat
  preview : String
  type : FileKind
deriving DecidableEq, Repr

/-- `MediaGallery` state: its `files` collection plus the instrumented list
of live object URLs (`URL.createObjectURL` adds, `URL.revokeObjectURL`
removes). -/
structure GalleryState where
  files : List MediaFile
  allocated : List String
deriving DecidableEq, Repr

/-- `MediaGallery.removeFile` (lines 286-292 of the component source): find
the entry, revoke its `preview` object URL, then filter it out. -/
def removeFile (s : GalleryState) (i : Nat) : GalleryState :=
  let allocated1 :=
    match s.files.find? (fun f => f.id == i) with
    | some f => s.allocated.filter (fun u => u != f.preview)
    | none => s.allocated
  { files := s.files.filter (fun f => f.id != i), allocated := allocated1 }

/-- `MediaGallery.clearAll`: revoke every file's preview, then empty the
collection. -/
def clearAll (s : GalleryState) : GalleryState :=
  { files := [],
    allocated :=
      s.allocated.filter (fun u => !(s.files.any (fun f => f.preview == u))) }

/-- The Library domain of the active root wiring: `assets` (Library, owned
by `EditorSidebar`), `selectedAssets` (Composition, the sibling collection),
and the instrumented live object URLs. -/
structure LibraryDomain where
  assets : List MediaAsset
  selectedAssets : List MediaAsset
  allocated : List String
deriving DecidableEq, Repr

/-- `EditorSidebar.removeAsset` (lines 119-121):
`onAssetsChange(assets.filter((a) => a.id !== id))` — the entry is removed,
and no `URL.revokeObjectURL` call is made on its thumbnail. -/
def removeAsset (s : LibraryDomain) (i : Nat) : LibraryDomain :=
  { s with assets := s.assets.filter (fun a => a.id != i) }

/-! Concrete sample data used by closed statements. -/

/-- A sample video asset already sitting in a collection. -/
def assetA : MediaAsset :=
  { id := 1, name := "clip-a.mp4", type := .video,
    thumbnail := "blob:thumb-a", file := "blob:file-a" }

/-- A sample asset whose preview object URL is `blob:p`. -/
def assetP : MediaAsset :=
  { id := 1, name := "pic-p.png", type := .image,
    thumbnail := "blob:p", file := "blob:p" }

/-- A dropped file with a non-media MIME type. -/
def dropOther : DropFile :=
  { name := "doc.bin", mime := "application/octet-stream",
    objectUrl := "blob:doc", thumbResult := none }

/-- A dropped video whose binary fails to decode (thumbnail rejected). -/
def dropBadVideo : DropFile :=
  { name := "bad.mp4", mime := "video/mp4", objectUrl := "blob:bad",
    thumbResult := none }

/-- A dropped image. -/
def dropImage : DropFile :=
  { name := "pic.png", mime := "image/png", objectUrl := "blob:pic",
    thumbResult := none }

/-- A controller state holding artifact `blob:v1`, with one asset in the
Composition and both dedup markers unset. -/
def canvasHolding : CanvasState :=
  { videoUrl := some "blob:v1", importedVideoUrl := none,
    reloadedVideoUrl := none, library := [], composition := [assetA] }

/-- A controller state that acted on artifact `blob:v1` (import marker set)
and then received the distinct artifact `blob:v2`. -/
def canvasMarked : CanvasState :=
  { videoUrl := some "blob:v1", importedVideoUrl := some "blob:v1",
    reloadedVideoUrl := none, library := [], composition := [assetA] }

/-- The app state right before a pipeline invocation: prior log content,
empty Composition, not busy. -/
def idleEmptyApp : AppState :=
  { assets := [], selectedAssets := [], isProcessing := false,
    output := "💡 Ready to process your media", command := none,
    videoUrl := none }

/-- The app state while a request is in flight: busy, partial log, artifact
cleared by the dispatch reset, non-empty Composition. -/
def busyApp : AppState :=
  { assets := [], selectedAssets := [assetA], isProcessing := true,
    output := "🤖 Starting FFmpeg processing...\n✓ Uploading files...\n",
    command := none, videoUrl := none }

/-- A Library domain owning one asset whose preview `blob:p` is live and is
not referenced by the (empty) Composition. -/
def sidebarDomain : LibraryDomain :=
  { assets := [assetP], selectedAssets := [], allocated := ["blob:p"] }

/-- A gallery file whose preview object URL is `blob:g`. -/
def fileG : MediaFile := { id := 4, preview := "blob:g", type := .image }

/-- A gallery owning one file whose preview `blob:g` is live. -/
def galleryOne : GalleryState :=
  { files := [fileG], allocated := ["blob:g"] }

/-! Helper lemmas shared across the development. -/

theorem countId_append (l m : List MediaAsset) (i : Nat) :
    countId (l ++ m) i = countId l i + countId m i := by
  simp [countId, List.filter_append]

theorem countId_handleAdd (l : List MediaAsset) (a : MediaAsset)
    (h : countId l a.id ≤ 1) :
    countId (handleAddAssetToCreate l a) a.id = 1 := by
  by_cases hany : l.any (fun x => x.id == a.id) = true
  · rw [handleAddAssetToCreate, if_pos hany]
    obtain ⟨x, hx, hp⟩ := List.any_eq_true.mp hany
    have hmem : x ∈ l.filter (fun y => y.id == a.id) :=
      List.mem_filter.mpr ⟨hx, hp⟩
    have hpos : 0 < countId l a.id := by
      simpa [countId] using List.length_pos_of_mem hmem
    omega
  · rw [handleAddAssetToCreate, if_neg hany, countId_append]
    have hzero : countId l a.id = 0 := by
      simp only [countId, List.length_eq_zero, List.filter_eq_nil_iff]
      intro x hx
      have hnp : ¬(x.id == a.id) = true := fun hp =>
        hany (List.any_eq_true.mpr ⟨x, hx, hp⟩)
      simpa using hnp
    rw [hzero]
    simp [countId]

/-! Claim theorems. -/

/-- Claim C3: for every asset `a`, any non-empty sequence of
`addToComposition(a)` calls (`handleAddAssetToCreate`) starting from a
Composition holding at most one entry with `a.id` leaves exactly one entry
whose id equals `a.id`; inserting an asset whose id is already present is a
no-op. -/
theorem addToComposition_dedup_idempotent (a : MediaAsset)
    (l : List MediaAsset) (n : Nat) (h1 : 1 ≤ n)
    (h2 : countId l a.id ≤ 1) :
    countId (iterateAdd n l a) a.id = 1 ∧
    (l.any (fun x => x.id == a.id) = true →
      handleAddAssetToCreate l a = l) := by
  constructor
  · obtain ⟨m, rfl⟩ : ∃ m, n = m + 1 := ⟨n - 1, by omega⟩
    clear h1
    induction m generalizing l with
    | zero => simpa [iterateAdd] using countId_handleAdd l a h2
    | succ k ih =>
        have hstep : iterateAdd (k + 1 + 1) l a =
            iterateAdd (k + 1) (handleAddAssetToCreate l a) a := rfl
        rw [hstep]
        exact ih _ (le_of_eq (countId_handleAdd l a h2))
  · intro hmem
    rw [handleAddAssetToCreate, if_pos hmem]

/-- Witness for C3: two successive insertions of the same asset into an
empty Composition leave exactly one entry with its id. -/
theorem addToComposition_dedup_idempotent_witness :
    countId (iterateAdd 2 [] assetA) assetA.id = 1 ∧
    (List.any ([] : List MediaAsset) (fun x => x.id == assetA.id) = true →
      handleAddAssetToCreate [] assetA = []) :=
  addToComposition_dedup_idempotent assetA [] 2 (by norm_num) (by decide)

/-- Claim C10: file-kind classification at ingestion is total — every file
is assigned exactly one kind from {image, video, audio} by its declared MIME
type, in the priority order image/video/audio, and a MIME type matching none
of the three prefixes is classified as image; the ingested asset always
carries exactly the classified kind (so no file is rejected). -/
theorem fileKind_classification_total (m : String) (f : DropFile) (i : Nat) :
    (getFileType m = .image ∨ getFileType m = .video ∨
      getFileType m = .audio) ∧
    (jsStartsWith m "image/" = true → getFileType m = .image) ∧
    (jsStartsWith m "image/" = false → jsStartsWith m "video/" = true →
      getFileType m = .video) ∧
    (jsStartsWith m "image/" = false → jsStartsWith m "video/" = false →
      jsStartsWith m "audio/" = true → getFileType m = .audio) ∧
    (jsStartsWith m "image/" = false → jsStartsWith m "video/" = false →
      jsStartsWith m "audio/" = false → getFileType m = .image) ∧
    (ingestFile f i).type = getFileType f.mime := by
  refine ⟨?_, ?_, ?_, ?_, ?_, rfl⟩ <;>
    cases hi : jsStartsWith m "image/" <;>
      cases hv : jsStartsWith m "video/" <;>
        cases ha : jsStartsWith m "audio/" <;>
          simp [getFileType, hi, hv, ha]

/-- Witness for C10: a file with MIME type `application/octet-stream`
matches none of the prefixes and is classified (and ingested) as image. -/
theorem fileKind_classification_total_witness :
    getFileType "application/octet-stream" = .image ∧
    (ingestFile dropOther 5).type = getFileType dropOther.mime := by
  have h := fileKind_classification_total "application/octet-stream"
    dropOther 5
  exact ⟨h.2.2.2.2.1 (by decide) (by decide) (by decide), h.2.2.2.2.2⟩

/-- Claim C1: with an unchanged held artifact, the first successful
`importToLibrary` call appends exactly one Library entry and sets the
`importedFor` marker to the artifact's identity; a second call in
succession finds the marker equal to the current artifact and is a no-op,
so two calls yield exactly one new Library entry. -/
theorem importToLibrary_once_per_artifact (s : CanvasState) (url : String)
    (t1 t2 : Option String) (f2 : Bool) (i1 i2 n1 n2 : Nat)
    (hurl : s.videoUrl = some url) (hm : s.importedVideoUrl ≠ some url) :
    (handleImportToLibrary s true t1 i1 n1).library.length =
      s.library.length + 1 ∧
    (handleImportToLibrary s true t1 i1 n1).importedVideoUrl = some url ∧
    handleImportToLibrary (handleImportToLibrary s true t1 i1 n1) f2 t2 i2 n2
      = handleImportToLibrary s true t1 i1 n1 := by
  have h1 : handleImportToLibrary s true t1 i1 n1 =
      { s with library :=
                 s.library ++ [renderedAsset (t1.getD url) url i1 n1],
               importedVideoUrl := some url } := by
    simp [handleImportToLibrary, hurl, hm]
  refine ⟨?_, ?_, ?_⟩
  · rw [h1]; simp
  · rw [h1]
  · rw [h1]; simp [handleImportToLibrary, hurl]

/-- Witness for C1: two successive imports of the held artifact `blob:v1`
produce one new Library entry, and the second call changes nothing. -/
theorem importToLibrary_once_per_artifact_witness :
    (handleImportToLibrary canvasHolding true (some "blob:t") 7 100).library.length
      = canvasHolding.library.length + 1 ∧
    (handleImportToLibrary canvasHolding true (some "blob:t") 7 100).importedVideoUrl
      = some "blob:v1" ∧
    handleImportToLibrary
        (handleImportToLibrary canvasHolding true (some "blob:t") 7 100)
        true none 8 101
      = handleImportToLibrary canvasHolding true (some "blob:t") 7 100 :=
  importToLibrary_once_per_artifact canvasHolding "blob:v1" (some "blob:t")
    none true 7 8 100 101 rfl (by decide)

/-- Claim C4: receiving a new artifact reference resets both dedup markers
to unset, so for distinct artifacts `r1 ≠ r2` a marker set while holding
`r1` does not suppress the import action (one entry is still appended) or
the reload action (its marker is freshly set) on `r2`. -/
theorem newArtifact_resets_dedup_markers (s : CanvasState) (r1 r2 : String)
    (t : Option String) (i n : Nat)
    (hset : s.importedVideoUrl = some r1) (hne : r1 ≠ r2) :
    (receiveArtifact s (some r2)).importedVideoUrl = none ∧
    (receiveArtifact s (some r2)).reloadedVideoUrl = none ∧
    (handleImportToLibrary (receiveArtifact s (some r2)) true t i n).library.length
      = s.library.length + 1 ∧
    (handleReloadToCompose (receiveArtifact s (some r2)) true t i n).reloadedVideoUrl
      = some r2 := by
  refine ⟨rfl, rfl, ?_, ?_⟩
  · simp [receiveArtifact, handleImportToLibrary]
  · simp [receiveArtifact, handleReloadToCompose]

/-- Witness for C4: after acting on `blob:v1` and then receiving the
distinct artifact `blob:v2`, the markers are unset and both terminal
actions remain available on `blob:v2`. -/
theorem newArtifact_resets_dedup_markers_witness :
    (receiveArtifact canvasMarked (some "blob:v2")).importedVideoUrl = none ∧
    (receiveArtifact canvasMarked (some "blob:v2")).reloadedVideoUrl = none ∧
    (handleImportToLibrary (receiveArtifact canvasMarked (some "blob:v2"))
        true none 9 102).library.length
      = canvasMarked.library.length + 1 ∧
    (handleReloadToCompose (receiveArtifact canvasMarked (some "blob:v2"))
        true none 9 102).reloadedVideoUrl = some "blob:v2" :=
  newArtifact_resets_dedup_markers canvasMarked "blob:v1" "blob:v2" none 9 102
    rfl (by decide)

theorem ingestBatch_length (files : List DropFile) (i : Nat) :
    (ingestBatch files i).length = files.length := by
  induction files generalizing i with
  | nil => rfl
  | cons f fs ih => simp [ingestBatch, ih]

theorem ingestBatch_get? (files : List DropFile) (i k : Nat) :
    (ingestBatch files i).get? k =
      (files.get? k).map (fun f => ingestFile f (i + k)) := by
  induction files generalizing i k with
  | nil => simp [ingestBatch]
  | cons f fs ih =>
      cases k with
      | zero => simp [ingestBatch]
      | succ k2 =>
          simp only [ingestBatch, List.get?_cons_succ, ih]
          have harith : i + 1 + k2 = i + (k2 + 1) := by omega
          rw [harith]

/-- Claim C8: every file of a dropped batch yields exactly one Library
entry; the entry at position `k` depends only on the `k`-th file, so one
item's thumbnail failure cannot affect a sibling; and a video whose
thumbnail generation fails is still ingested, with the empty placeholder
preview, rather than raising to the caller. -/
theorem addToLibrary_resilient_batch (assets : List MediaAsset)
    (files : List DropFile) (startId : Nat) (f : DropFile) (k : Nat)
    (hget : files.get? k = some f)
    (hv : getFileType f.mime = .video) (ht : f.thumbResult = none) :
    (onDrop assets files startId).length = assets.length + files.length ∧
    (ingestBatch files startId).get? k = some (ingestFile f (startId + k)) ∧
    (ingestFile f (startId + k)).type = .video ∧
    (ingestFile f (startId + k)).thumbnail = "" ∧
    ingestFile f (startId + k) ∈ onDrop assets files startId := by
  have hk : (ingestBatch files startId).get? k =
      some (ingestFile f (startId + k)) := by
    rw [ingestBatch_get?, hget]; rfl
  refine ⟨?_, hk, ?_, ?_, ?_⟩
  · simp [onDrop, ingestBatch_length]
  · simp [ingestFile, hv]
  · simp [ingestFile, hv, ht]
  · exact List.mem_append_right assets (List.get?_mem hk)

/-- Witness for C8: a two-file batch where the first video fails to decode;
both files are ingested, and the failed one carries the placeholder. -/
theorem addToLibrary_resilient_batch_witness :
    (onDrop [assetA] [dropBadVideo, dropImage] 10).length = 1 + 2 ∧
    (ingestBatch [dropBadVideo, dropImage] 10).get? 0 =
      some (ingestFile dropBadVideo (10 + 0)) ∧
    (ingestFile dropBadVideo (10 + 0)).type = .video ∧
    (ingestFile dropBadVideo (10 + 0)).thumbnail = "" ∧
    ingestFile dropBadVideo (10 + 0) ∈ onDrop [assetA] [dropBadVideo, dropImage] 10 := by
  have h := addToLibrary_resilient_batch [assetA] [dropBadVideo, dropImage]
    10 dropBadVideo 0 rfl (by decide) rfl
  simpa using h

/-- Counterexample to C2: on the held artifact `blob:v1` with one asset in
the Composition, `handleReloadToCompose` whose binary retrieval fails does
NOT leave the Composition as it was — the source clears the Composition
before fetching, so the failed action leaves it empty. -/
theorem conversion_failure_mutates_counterexample :
    (handleReloadToCompose canvasHolding false none 7 0).composition = [] ∧
    canvasHolding.composition = [assetA] ∧
    ([] : List MediaAsset) ≠ [assetA] ∧
    (handleReloadToCompose canvasHolding false none 7 0).reloadedVideoUrl
      = none := by decide

/-- Claim C2 as amended: a binary-retrieval failure during
`importToLibrary` leaves the whole state unchanged and the marker unset
(retriable); a thumbnail failure does NOT abort either action — the
conversion falls back to the artifact URL as the preview, the asset is
still added and the marker is set; and in `reloadToComposition` the
Composition is cleared before retrieval, so a retrieval failure leaves the
Composition empty (with the marker still unset and the Library and the
rest of the state untouched). -/
theorem conversion_failure_amended (s : CanvasState) (url : String)
    (t : Option String) (i n : Nat)
    (hurl : s.videoUrl = some url)
    (him : s.importedVideoUrl ≠ some url)
    (hrl : s.reloadedVideoUrl ≠ some url) :
    handleImportToLibrary s false t i n = s ∧
    (handleImportToLibrary s true none i n).library =
      s.library ++ [renderedAsset url url i n] ∧
    (handleImportToLibrary s true none i n).importedVideoUrl = some url ∧
    handleReloadToCompose s false t i n = { s with composition := [] } ∧
    (handleReloadToCompose s true none i n).composition =
      [renderedAsset url url i n] ∧
    (handleReloadToCompose s true none i n).reloadedVideoUrl = some url := by
  refine ⟨?_, ?_, ?_, ?_, ?_, ?_⟩ <;>
    simp [handleImportToLibrary, handleReloadToCompose, hurl, him, hrl]

/-- Witness for the amended C2 at the concrete state `canvasHolding`. -/
theorem conversion_failure_amended_witness :
    handleImportToLibrary canvasHolding false (some "blob:t") 7 0
      = canvasHolding ∧
    (handleImportToLibrary canvasHolding true none 7 0).library =
      canvasHolding.library ++ [renderedAsset "blob:v1" "blob:v1" 7 0] ∧
    (handleImportToLibrary canvasHolding true none 7 0).importedVideoUrl
      = some "blob:v1" ∧
    handleReloadToCompose canvasHolding false (some "blob:t") 7 0
      = { canvasHolding with composition := [] } ∧
    (handleReloadToCompose canvasHolding true none 7 0).composition =
      [renderedAsset "blob:v1" "blob:v1" 7 0] ∧
    (handleReloadToCompose canvasHolding true none 7 0).reloadedVideoUrl
      = some "blob:v1" :=
  conversion_failure_amended canvasHolding "blob:v1" (some "blob:t") 7 0
    rfl (by decide) (by decide)

/-- Claim C5, evaluated at the failing input (code bug): while `busy` is
true the Generate button is disabled, but `handleSendPrompt` (the Enter-key
path) still invokes the pipeline, and `handleProcess` itself has no busy
guard — on a busy state with a non-empty Composition and a non-blank
prompt, the invocation is accepted: it resets the Process Log to the
dispatch lines (an observable change) and runs a full second cycle instead
of being rejected synchronously. -/
theorem pipeline_busy_not_rejected :
    generateButtonDisabled "merge clips" true = true ∧
    sendPromptInvokes "merge clips" = true ∧
    busyApp.isProcessing = true ∧
    (handleProcessSync busyApp "merge clips").output =
      startLine ++ progressLines ∧
    (handleProcessSync busyApp "merge clips").output ≠ busyApp.output ∧
    handleProcess busyApp "merge clips" (.err "Network Error") ≠
      busyApp := by decide

/-- Counterexample to C6: with prior Process Log content and an empty
Composition, invoking the pipeline with a non-blank prompt REPLACES the log
by the warning line — the warning is not appended and the prior content is
cleared. -/
theorem precondition_replaces_log_counterexample :
    (handleProcess idleEmptyApp "make a slideshow" (.err "x")).output =
      warnFilesLine ∧
    (handleProcess idleEmptyApp "make a slideshow" (.err "x")).output ≠
      idleEmptyApp.output ++ warnFilesLine ∧
    jsStartsWith
      (handleProcess idleEmptyApp "make a slideshow" (.err "x")).output
      idleEmptyApp.output = false := by decide

/-- Claim C6 as amended: on every pipeline invocation, if the Composition
is empty or the prompt is blank, the Process Log is REPLACED by a single
warning-classified line (prior content is cleared), nothing else changes —
in particular no request is sent (the result is independent of the service
outcome) and `busy` remains false; otherwise the dispatch first resets the
log to the single processing-start line and then appends the progress
lines. -/
theorem precondition_and_dispatch_log_amended (s : AppState)
    (prompt : String) (svc : ServiceResult)
    (hbusy : s.isProcessing = false) :
    (s.selectedAssets.isEmpty = true →
      handleProcess s prompt svc = { s with output := warnFilesLine } ∧
      (handleProcess s prompt svc).isProcessing = false ∧
      jsStartsWith warnFilesLine "⚠️" = true) ∧
    (s.selectedAssets.isEmpty = false → isBlank prompt = true →
      handleProcess s prompt svc = { s with output := warnPromptLine } ∧
      (handleProcess s prompt svc).isProcessing = false ∧
      jsStartsWith warnPromptLine "⚠️" = true) ∧
    (s.selectedAssets.isEmpty = false → isBlank prompt = false →
      (dispatchReset s).output = startLine ∧
      (handleProcessSync s prompt).output = startLine ++ progressLines) := by
  refine ⟨?_, ?_, ?_⟩
  · intro h1
    have he : handleProcess s prompt svc = { s with output := warnFilesLine } := by
      simp [handleProcess, handleProcessSync, h1]
    exact ⟨he, by rw [he]; exact hbusy, by decide⟩
  · intro h1 h2
    have he : handleProcess s prompt svc = { s with output := warnPromptLine } := by
      simp [handleProcess, handleProcessSync, h1, h2]
    exact ⟨he, by rw [he]; exact hbusy, by decide⟩
  · intro h1 h2
    exact ⟨rfl, by simp [handleProcessSync, h1, h2, dispatchReset]⟩

/-- Witness for the amended C6: empty Composition, non-blank prompt. -/
theorem precondition_and_dispatch_log_amended_witness :
    handleProcess idleEmptyApp "make a slideshow" (.ok "c" "blob:v")
      = { idleEmptyApp with output := warnFilesLine } ∧
    (handleProcess idleEmptyApp "make a slideshow" (.ok "c" "blob:v")).isProcessing
      = false ∧
    jsStartsWith warnFilesLine "⚠️" = true :=
  (precondition_and_dispatch_log_amended idleEmptyApp "make a slideshow"
    (.ok "c" "blob:v") rfl).1 rfl

/-- Counterexample to C7: the Library-ingestion thumbnail variant seeks to
`min(1, duration * 0.1)`, not `duration * 0.1` — at duration 20s it seeks
to 1s, not 2s — and the two variants are two different heuristics: at
duration 1s one seeks to 0.5s and the other to 0.1s. -/
theorem thumbnail_seek_counterexample :
    generateVideoThumbnailLibrary ⟨20, 640, 360⟩ =
      { seekTime := 1, width := 640, height := 360 } ∧
    (20 : ℚ) * (1 / 10) = 2 ∧
    (generateVideoThumbnailLibrary ⟨20, 640, 360⟩).seekTime ≠
      20 * (1 / 10) ∧
    (generateVideoThumbnailRender ⟨1, 640, 360⟩).seekTime = 1 / 2 ∧
    (generateVideoThumbnailLibrary ⟨1, 640, 360⟩).seekTime = 1 / 10 ∧
    (generateVideoThumbnailRender ⟨1, 640, 360⟩).seekTime ≠
      (generateVideoThumbnailLibrary ⟨1, 640, 360⟩).seekTime := by
  refine ⟨?_, by norm_num, ?_, ?_, ?_, ?_⟩ <;>
    simp [generateVideoThumbnailLibrary, generateVideoThumbnailRender,
      min_def] <;> norm_num

/-- Claim C7 as amended: both thumbnail variants rasterize the frame at the
source's native pixel dimensions; the render-preview variant seeks to
`min(1s, duration/2)` and the Library-ingestion variant to
`min(1s, duration * 0.1)`; these are two distinct heuristics — for a
non-negative duration they pick the same seek position exactly when the
duration is at least 10s (both clamp to 1s) or zero. -/
theorem thumbnail_seek_amended (v : VideoMeta) (hd : 0 ≤ v.duration) :
    (generateVideoThumbnailRender v).seekTime = min 1 (v.duration / 2) ∧
    (generateVideoThumbnailLibrary v).seekTime =
      min 1 (v.duration * (1 / 10)) ∧
    (generateVideoThumbnailRender v).width = v.videoWidth ∧
    (generateVideoThumbnailRender v).height = v.videoHeight ∧
    (generateVideoThumbnailLibrary v).width = v.videoWidth ∧
    (generateVideoThumbnailLibrary v).height = v.videoHeight ∧
    ((generateVideoThumbnailRender v).seekTime =
        (generateVideoThumbnailLibrary v).seekTime ↔
      10 ≤ v.duration ∨ v.duration = 0) := by
  set d := v.duration with hdef
  refine ⟨rfl, rfl, rfl, rfl, rfl, rfl, ?_⟩
  show min 1 (d / 2) = min 1 (d * (1 / 10)) ↔ 10 ≤ d ∨ d = 0
  constructor
  · intro heq
    rcases lt_or_le d 2 with h2 | h2
    · have e1 : min 1 (d / 2) = d / 2 :=
        min_eq_right (by linarith)
      have e2 : min 1 (d * (1 / 10)) = d * (1 / 10) :=
        min_eq_right (by linarith)
      right
      rw [e1, e2] at heq
      linarith
    · rcases lt_or_le d 10 with h10 | h10
      · have e1 : min 1 (d / 2) = 1 :=
          min_eq_left (by linarith)
        have e2 : min 1 (d * (1 / 10)) = d * (1 / 10) :=
          min_eq_right (by linarith)
        rw [e1, e2] at heq
        linarith
      · exact Or.inl h10
  · rintro (h10 | h0)
    · have e1 : min 1 (d / 2) = 1 := min_eq_left (by linarith)
      have e2 : min 1 (d * (1 / 10)) = 1 := min_eq_left (by linarith)
      rw [e1, e2]
    · rw [h0]; norm_num

/-- Witness for the amended C7 at a 12-second 1280×720 video: both
variants clamp the seek to 1s and agree. -/
theorem thumbnail_seek_amended_witness :
    (generateVideoThumbnailRender ⟨12, 1280, 720⟩).seekTime =
      min 1 ((12 : ℚ) / 2) ∧
    (generateVideoThumbnailLibrary ⟨12, 1280, 720⟩).seekTime =
      min 1 ((12 : ℚ) * (1 / 10)) ∧
    (generateVideoThumbnailRender ⟨12, 1280, 720⟩).width = 1280 ∧
    (generateVideoThumbnailRender ⟨12, 1280, 720⟩).height = 720 ∧
    (generateVideoThumbnailLibrary ⟨12, 1280, 720⟩).width = 1280 ∧
    (generateVideoThumbnailLibrary ⟨12, 1280, 720⟩).height = 720 ∧
    ((generateVideoThumbnailRender ⟨12, 1280, 720⟩).seekTime =
        (generateVideoThumbnailLibrary ⟨12, 1280, 720⟩).seekTime ↔
      (10 : ℚ) ≤ 12 ∨ (12 : ℚ) = 0) :=
  thumbnail_seek_amended ⟨12, 1280, 720⟩ (by norm_num)

/-- Counterexample to C9: removing the only asset owning preview `blob:p`
through `EditorSidebar.removeAsset`, with the sibling Composition empty,
removes it from every collection yet leaves `blob:p` allocated — the active
Library removal path never revokes the preview object URL. -/
theorem preview_release_counterexample :
    (removeAsset sidebarDomain 1).assets = [] ∧
    (removeAsset sidebarDomain 1).selectedAssets = [] ∧
    assetP.thumbnail = "blob:p" ∧
    assetP.thumbnail ∈ (removeAsset sidebarDomain 1).allocated := by decide

/-- Claim C9 as amended: the `MediaGallery` variant honours the release
rule — `removeFile` revokes the removed file's preview and `clearAll`
revokes every file's preview — but the active `EditorSidebar` removal path
only filters the entry out and releases nothing, so an asset removed there
can leave a dangling preview handle even when no sibling references it. -/
theorem preview_release_amended (g : GalleryState) (i : Nat) (f : MediaFile)
    (hf : g.files.find? (fun x => x.id == i) = some f)
    (s : LibraryDomain) (j : Nat) :
    (removeFile g i).files = g.files.filter (fun x => x.id != i) ∧
    f.preview ∉ (removeFile g i).allocated ∧
    (clearAll g).files = [] ∧
    f.preview ∉ (clearAll g).allocated ∧
    (removeAsset s j).allocated = s.allocated ∧
    (removeAsset s j).selectedAssets = s.selectedAssets ∧
    (removeAsset s j).assets = s.assets.filter (fun a => a.id != j) := by
  have hmem : f ∈ g.files := List.mem_of_find?_eq_some hf
  refine ⟨rfl, ?_, rfl, ?_, rfl, rfl, rfl⟩
  · intro habs
    rw [removeFile] at habs
    simp only [hf] at habs
    rcases List.mem_filter.mp habs with ⟨-, hp⟩
    simp at hp
  · intro habs
    rw [clearAll] at habs
    rcases List.mem_filter.mp habs with ⟨-, hp⟩
    have hany : g.files.any (fun f2 => f2.preview == f.preview) = true :=
      List.any_eq_true.mpr ⟨f, hmem, by simp⟩
    simp [hany] at hp

/-- Witness for the amended C9: a one-file gallery releases `blob:g` on
removal, while the sidebar removal leaves its allocation list untouched. -/
theorem preview_release_amended_witness :
    (removeFile galleryOne 4).files =
      galleryOne.files.filter (fun x => x.id != 4) ∧
    fileG.preview ∉ (removeFile galleryOne 4).allocated ∧
    (clearAll galleryOne).files = [] ∧
    fileG.preview ∉ (clearAll galleryOne).allocated ∧
    (removeAsset sidebarDomain 2).allocated = sidebarDomain.allocated ∧
    (removeAsset sidebarDomain 2).selectedAssets =
      sidebarDomain.selectedAssets ∧
    (removeAsset sidebarDomain 2).assets =
      sidebarDomain.assets.filter (fun a => a.id != 2) :=
  preview_release_amended galleryOne 4 fileG (by decide) sidebarDomain 2
